import Mathlib

/-!
Shallow embedding of the `zmp_openapi` Python SDK (Zalo Mini App Open API
client) and verification of its specification claims.

The embedding follows the source files:
  * `zmp_openapi/constants.py`  — domain and path constants
  * `zmp_openapi/models.py`     — Pydantic request models, `model_to_payload`,
                                  `encode_deploy_file`
  * `zmp_openapi/client.py`     — blocking `OpenAPIClient` facade
  * `zmp_openapi/async_client.py` — non-blocking `AsyncOpenAPIClient` facade
  * `zmp_openapi/openapi.py`    — low-level request functions

Side effects are made explicit: HTTP calls are modelled by the request value
the code would hand to the transport (`Request` for the `requests` library,
`ARequest` for `aiohttp`), the filesystem is a function from path strings to
optional byte contents, and Python exceptions are `Except` errors.
-/

set_option autoImplicit false

namespace ZmpOpenapi

/-- A Python value as it appears in payload dictionaries: strings, ints,
booleans, byte strings, `pathlib.Path` values and `None`. -/
inductive PyValue where
  | str : String → PyValue
  | int : Int → PyValue
  | bool : Bool → PyValue
  | bytes : List Nat → PyValue
  | path : String → PyValue
  | null : PyValue
deriving DecidableEq, Repr

/-- A payload dictionary: an association list of string keys to Python
values, in insertion order (Python dicts preserve insertion order and have
unique keys). -/
abbrev Payload := List (String × PyValue)

/-- Python `payload.get(k)` / `payload[k]`: the value at the first (in a real
dict, unique) occurrence of key `k`. -/
def payloadGet (payload : Payload) (k : String) : Option PyValue :=
  match payload with
  | [] => Option.none
  | (k', v) :: rest => if k' = k then some v else payloadGet rest k

/-- Python `payload[k] = v` on a key already present: replace the value at
the (unique) occurrence of `k`, keeping its position and all other entries. -/
def setKey (k : String) (v : PyValue) : Payload → Payload
  | [] => []
  | (k', v') :: rest => if k' = k then (k', v) :: rest else (k', v') :: setKey k v rest

/-- Exceptions raised by the SDK code paths the claims exercise. -/
inductive SdkError where
  /-- Python `TypeError(msg)` (the spec's `InvalidPayloadType`). -/
  | typeError : String → SdkError
  /-- Python `ValueError(msg)` from client construction. -/
  | valueError : String → SdkError
  /-- `Path.read_bytes()` on a path that is not an existing file. -/
  | fileNotFound : String → SdkError
  /-- `requests.HTTPError` / `aiohttp.ClientResponseError` carrying the
  HTTP status code. -/
  | httpError : Nat → SdkError
  /-- `json.JSONDecodeError` escaping `aiohttp`'s `response.json()` when the
  content type is JSON but the body is malformed (not caught by the
  `except aiohttp.ContentTypeError` clause). -/
  | jsonDecodeError : SdkError
deriving DecidableEq, Repr

/-! ## `zmp_openapi/constants.py` -/

def DOMAIN_PROD : String := "https://openapi.mini.zalo.me"

def DOMAIN_DEV : String := "http://10.30.80.237:9065"

def APPS : String := "/apps"

def UPLOAD : String := "/upload"

def VERSIONS : String := "/versions"

def REQUEST_PUBLISH : String := "/request-publish"

def PUBLISH : String := "/publish"

/-! ## `zmp_openapi/models.py` — request models -/

/-- `Proxy(BaseModel)`: proxy host and port. The port is a Python `int`. -/
structure Proxy where
  host : String
  port : Int
deriving DecidableEq, Repr

/-- `AppInfo(BaseModel)`: fields in declaration order, with their wire
aliases `appName`, `appDescription`, `appCategory`, `appLogoUrl`;
`browsable` has no alias. -/
structure AppInfo where
  app_name : String
  app_description : String
  app_category : String
  app_logo_url : String
  browsable : Bool
deriving DecidableEq, Repr

/-- `AppSlice(BaseModel)`: `mini_app_id` (alias `miniAppId`) is optional
with default `None`; `offset` and `limit` are required ints. -/
structure AppSlice where
  mini_app_id : Option String
  offset : Int
  limit : Int
deriving DecidableEq, Repr

/-- The `file` field of `DeployApp`: `Union[str, bytes, Path]`. -/
inductive FileRef where
  | str : String → FileRef
  | bytes : List Nat → FileRef
  | path : String → FileRef
deriving DecidableEq, Repr

/-- `DeployApp(BaseModel)`: `mini_app_id` (alias `miniAppId`), `file`,
`name`, `description`, all required. -/
structure DeployApp where
  mini_app_id : String
  file : FileRef
  name : String
  description : String
deriving DecidableEq, Repr

/-- `PublishApp(BaseModel)`: `mini_app_id` (alias `miniAppId`),
`version_id` (alias `versionId`), optional `description` defaulting to
`None`. -/
structure PublishApp where
  mini_app_id : String
  version_id : Int
  description : Option String
deriving DecidableEq, Repr

/-- The `file` field as stored in a dumped payload. -/
def FileRef.toValue : FileRef → PyValue
  | .str s => .str s
  | .bytes b => .bytes b
  | .path p => .path p

/-- `AppInfo.model_dump(by_alias=True, exclude_none=True)`: all five fields
are required and non-`None`, emitted in declaration order under their
aliases. -/
def AppInfo.dump (a : AppInfo) : Payload :=
  [("appName", .str a.app_name),
   ("appDescription", .str a.app_description),
   ("appCategory", .str a.app_category),
   ("appLogoUrl", .str a.app_logo_url),
   ("browsable", .bool a.browsable)]

/-- `AppSlice.model_dump(by_alias=True, exclude_none=True)`: `miniAppId` is
dropped when `mini_app_id` is `None`. -/
def AppSlice.dump (a : AppSlice) : Payload :=
  (match a.mini_app_id with
   | some id => [("miniAppId", PyValue.str id)]
   | Option.none => [])
  ++ [("offset", .int a.offset), ("limit", .int a.limit)]

/-- `DeployApp.model_dump(by_alias=True, exclude_none=True)`: all four
fields are required. -/
def DeployApp.dump (d : DeployApp) : Payload :=
  [("miniAppId", .str d.mini_app_id),
   ("file", d.file.toValue),
   ("name", .str d.name),
   ("description", .str d.description)]

/-- `PublishApp.model_dump(by_alias=True, exclude_none=True)`:
`description` is dropped when `None`. -/
def PublishApp.dump (p : PublishApp) : Payload :=
  [("miniAppId", PyValue.str p.mini_app_id),
   ("versionId", PyValue.int p.version_id)]
  ++ (match p.description with
      | some d => [("description", PyValue.str d)]
      | Option.none => [])

/-- The request models on which `model_to_payload` recognises
`isinstance(value, BaseModel)`. -/
inductive ModelValue where
  | appInfo : AppInfo → ModelValue
  | appSlice : AppSlice → ModelValue
  | deployApp : DeployApp → ModelValue
  | publishApp : PublishApp → ModelValue
deriving DecidableEq, Repr

/-- `model_dump(by_alias=True, exclude_none=True)` on any request model. -/
def ModelValue.dump : ModelValue → Payload
  | .appInfo a => a.dump
  | .appSlice a => a.dump
  | .deployApp d => d.dump
  | .publishApp p => p.dump

/-- Possible arguments to `model_to_payload`: a Pydantic model, a plain
dict, or anything else (a number, string, list, ...). -/
inductive PayloadInput where
  | model : ModelValue → PayloadInput
  | dict : Payload → PayloadInput
  | other : PyValue → PayloadInput
deriving DecidableEq, Repr

/-- `model_to_payload` (`models.py`): a `BaseModel` is dumped by alias with
`exclude_none=True`; a dict is returned unchanged; anything else raises
`TypeError("Payload must be a dict or pydantic model")`. -/
def model_to_payload : PayloadInput → Except SdkError Payload
  | .model m => .ok m.dump
  | .dict d => .ok d
  | .other _ => .error (.typeError "Payload must be a dict or pydantic model")

/-! ## Base64 (`base64.b64encode(...).decode("ascii")`) -/

/-- The standard base64 alphabet. -/
def b64chars : List Char :=
  "ABCDEFGHIJKLMNOPQRSTUVWXYZabcdefghijklmnopqrstuvwxyz0123456789+/".toList

/-- The base64 digit for a 6-bit value. -/
def b64char (n : Nat) : Char := b64chars.getD n 'A'

/-- Standard base64 of a byte list, as characters, with `=` padding. -/
def b64encodeList : List Nat → List Char
  | b0 :: b1 :: b2 :: rest =>
      b64char (b0 / 4) ::
      b64char (b0 % 4 * 16 + b1 / 16) ::
      b64char (b1 % 16 * 4 + b2 / 64) ::
      b64char (b2 % 64) ::
      b64encodeList rest
  | [b0, b1] =>
      [b64char (b0 / 4), b64char (b0 % 4 * 16 + b1 / 16), b64char (b1 % 16 * 4), '=']
  | [b0] =>
      [b64char (b0 / 4), b64char (b0 % 4 * 16), '=', '=']
  | [] => []

/-- `base64.b64encode(bs).decode("ascii")`. -/
def b64encode (bs : List Nat) : String := String.mk (b64encodeList bs)

/-! ## `encode_deploy_file` (`models.py`)

The local filesystem is a function from path strings to the byte contents of
the regular file at that path, `Option.none` when `Path(p).is_file()` is
false.  `Path.read_bytes()` on a non-file raises, modelled as
`SdkError.fileNotFound`. -/

/-- A model of the local filesystem. -/
abbrev FileSystem := String → Option (List Nat)

/-- `encode_deploy_file` (`models.py`): if the payload has no `"file"` key it
is returned unchanged; a `Path` value is read and replaced by the base64 of
its contents (raising when the file does not exist); a `bytes` value is
replaced by its base64; a `str` value is read and replaced only when it
names an existing file, otherwise the payload is returned unchanged; any
other value falls through to the final `return payload`. -/
def encode_deploy_file (fs : FileSystem) (payload : Payload) :
    Except SdkError Payload :=
  match payloadGet payload "file" with
  | Option.none => .ok payload
  | some fileValue =>
    match fileValue with
    | .path p =>
        match fs p with
        | some bs => .ok (setKey "file" (.str (b64encode bs)) payload)
        | Option.none => .error (.fileNotFound p)
    | .bytes bs => .ok (setKey "file" (.str (b64encode bs)) payload)
    | .str s =>
        match fs s with
        | some bs => .ok (setKey "file" (.str (b64encode bs)) payload)
        | Option.none => .ok payload
    | _ => .ok payload

/-! ## `zmp_openapi/client.py` — blocking client facade -/

/-- Modelled from the spec: `SDK_VERSION = __version__` comes from
`zmp_openapi/version.py`, which is not among the provided sources.  The spec
only says every request carries an SDK version string, so the constant is
kept abstract as a fixed string; no claim depends on its value. -/
def SDK_VERSION : String := "sdk-version"

/-- `OpenAPIClient.SDK_NAME = "Python"`. -/
def SDK_NAME : String := "Python"

/-- `OpenAPIClient.DOMAIN = DOMAIN_PROD`. -/
def CLIENT_DOMAIN : String := DOMAIN_PROD

/-- The state of a constructed `OpenAPIClient` (also the base state of
`AsyncOpenAPIClient`, which only calls `super().__init__`). -/
structure OpenAPIClient where
  api_key : String
  zalo_app_id : String
  is_use_proxy : Bool
  proxy : Option Proxy
  headers : List (String × String)
deriving DecidableEq, Repr

/-- `OpenAPIClient.__init__`: rejects a falsy (empty) api key or app id,
then a provided proxy with falsy host (empty string) or falsy port (zero),
then stores the four fixed headers. -/
def OpenAPIClient.init (api_key zalo_app_id : String) (proxy : Option Proxy) :
    Except SdkError OpenAPIClient :=
  if api_key = "" ∨ zalo_app_id = "" then
    .error (.valueError "Invalid init value")
  else
    let headers := [("X-Api-Key", api_key), ("X-Zalo-AppID", zalo_app_id),
                    ("X-Sdk-Version", SDK_VERSION), ("X-Sdk-Name", SDK_NAME)]
    match proxy with
    | some p =>
        if p.host = "" ∨ p.port = 0 then .error (.valueError "Invalid proxy value")
        else .ok ⟨api_key, zalo_app_id, true, some p, headers⟩
    | Option.none => .ok ⟨api_key, zalo_app_id, false, Option.none, headers⟩

/-- `OpenAPIClient.set_proxy`: stores the proxy and sets `is_use_proxy`,
with no validation. -/
def OpenAPIClient.set_proxy (c : OpenAPIClient) (proxy : Proxy) : OpenAPIClient :=
  { c with proxy := some proxy, is_use_proxy := true }

/-- `OpenAPIClient.cancel_proxy`: clears the proxy. -/
def OpenAPIClient.cancel_proxy (c : OpenAPIClient) : OpenAPIClient :=
  { c with proxy := Option.none, is_use_proxy := false }

/-- `_build_proxy` (`client.py`): `None` for no proxy, else the
`requests`-style proxies dict mapping both schemes to
`http://{host}:{port}`. -/
def _build_proxy : Option Proxy → Option (List (String × String))
  | Option.none => Option.none
  | some p =>
      let proxy_url := "http://" ++ p.host ++ ":" ++ toString p.port
      some [("http", proxy_url), ("https", proxy_url)]

/-- `_build_proxy_url` (`async_client.py`): `None` for no proxy, else the
single proxy URL `http://{host}:{port}` passed to `aiohttp`. -/
def _build_proxy_url : Option Proxy → Option String
  | Option.none => Option.none
  | some p => some ("http://" ++ p.host ++ ":" ++ toString p.port)

/-- HTTP method of an outgoing request. -/
inductive Method where
  | GET
  | POST
deriving DecidableEq, Repr

/-- The request a blocking code path hands to the `requests` library:
method, URL, query params, JSON body, headers, and the `proxies=` argument
(`Option.none` when the argument is omitted or `None`). -/
structure Request where
  method : Method
  url : String
  params : Payload
  jsonBody : Option Payload
  headers : List (String × String)
  proxies : Option (List (String × String))
deriving DecidableEq, Repr

/-- The request a non-blocking code path hands to `aiohttp`: as `Request`
but with the single-URL `proxy=` argument. -/
structure ARequest where
  method : Method
  url : String
  params : Payload
  jsonBody : Option Payload
  headers : List (String × String)
  proxy : Option String
deriving DecidableEq, Repr

/-- Python `str()` of a payload value, as interpolated by an f-string. -/
def pyStrOf : PyValue → String
  | .str s => s
  | .int n => toString n
  | .bool b => if b then "True" else "False"
  | .bytes bs => "b" ++ toString (String.mk (bs.map Char.ofNat))
  | .path p => p
  | .null => "None"

/-- F-string interpolation of `payload.get(k)`: `"None"` when the key is
absent (Python `str(None)`). -/
def fmtOptVal : Option PyValue → String
  | Option.none => "None"
  | some v => pyStrOf v

/-- `OpenAPIClient.create_mini_app`: POST `{DOMAIN}{APPS}` with the payload
as JSON body, the client headers, and
`proxies=_build_proxy(self.proxy) if self.is_use_proxy else None`. -/
def OpenAPIClient.create_mini_app (c : OpenAPIClient) (app_info : PayloadInput) :
    Except SdkError Request := do
  let payload ← model_to_payload app_info
  pure ⟨.POST, CLIENT_DOMAIN ++ APPS, [], some payload, c.headers,
        if c.is_use_proxy then _build_proxy c.proxy else Option.none⟩

/-- `OpenAPIClient.get_mini_apps`: GET `{DOMAIN}{APPS}` with the payload as
query params and the client headers; no `proxies` argument is passed. -/
def OpenAPIClient.get_mini_apps (c : OpenAPIClient) (app_slice : PayloadInput) :
    Except SdkError Request := do
  let params ← model_to_payload app_slice
  pure ⟨.GET, CLIENT_DOMAIN ++ APPS, params, Option.none, c.headers, Option.none⟩

/-- `OpenAPIClient.deploy_mini_app`: encodes the file field, then POSTs
`{DOMAIN}{APPS}/{payload.get("miniAppId")}{UPLOAD}` with the encoded payload
as JSON body; no `proxies` argument is passed. -/
def OpenAPIClient.deploy_mini_app (c : OpenAPIClient) (fs : FileSystem)
    (deploy_app : PayloadInput) : Except SdkError Request := do
  let p ← model_to_payload deploy_app
  let payload ← encode_deploy_file fs p
  pure ⟨.POST,
        CLIENT_DOMAIN ++ APPS ++ "/" ++ fmtOptVal (payloadGet payload "miniAppId") ++ UPLOAD,
        [], some payload, c.headers, Option.none⟩

/-- `OpenAPIClient.get_versions_mini_app`: GET
`{DOMAIN}{APPS}/{params.get("miniAppId")}{VERSIONS}` with the payload as
query params; no `proxies` argument is passed. -/
def OpenAPIClient.get_versions_mini_app (c : OpenAPIClient) (app_slice : PayloadInput) :
    Except SdkError Request := do
  let params ← model_to_payload app_slice
  pure ⟨.GET,
        CLIENT_DOMAIN ++ APPS ++ "/" ++ fmtOptVal (payloadGet params "miniAppId") ++ VERSIONS,
        params, Option.none, c.headers, Option.none⟩

/-- `OpenAPIClient.request_publish_mini_app`: POST
`{DOMAIN}{APPS}/{payload.get("miniAppId")}{REQUEST_PUBLISH}` with the full
payload as JSON body; no `proxies` argument is passed. -/
def OpenAPIClient.request_publish_mini_app (c : OpenAPIClient)
    (publish_app : PayloadInput) : Except SdkError Request := do
  let payload ← model_to_payload publish_app
  pure ⟨.POST,
        CLIENT_DOMAIN ++ APPS ++ "/" ++ fmtOptVal (payloadGet payload "miniAppId") ++ REQUEST_PUBLISH,
        [], some payload, c.headers, Option.none⟩

/-- `OpenAPIClient.publish_mini_app`: POST
`{DOMAIN}{APPS}/{payload.get("miniAppId")}{PUBLISH}` with the full payload
as JSON body; no `proxies` argument is passed. -/
def OpenAPIClient.publish_mini_app (c : OpenAPIClient)
    (publish_app : PayloadInput) : Except SdkError Request := do
  let payload ← model_to_payload publish_app
  pure ⟨.POST,
        CLIENT_DOMAIN ++ APPS ++ "/" ++ fmtOptVal (payloadGet payload "miniAppId") ++ PUBLISH,
        [], some payload, c.headers, Option.none⟩

/-! ## `zmp_openapi/async_client.py` — non-blocking client facade

`AsyncOpenAPIClient` inherits `OpenAPIClient.__init__`, `set_proxy` and
`cancel_proxy` unchanged; its state is the same `OpenAPIClient` record. -/

/-- `AsyncOpenAPIClient.create_mini_app`: POST `{DOMAIN}{APPS}` with
`proxy=_build_proxy_url(self.proxy) if self.is_use_proxy else None`. -/
def AsyncOpenAPIClient.create_mini_app (c : OpenAPIClient) (app_info : PayloadInput) :
    Except SdkError ARequest := do
  let payload ← model_to_payload app_info
  pure ⟨.POST, CLIENT_DOMAIN ++ APPS, [], some payload, c.headers,
        if c.is_use_proxy then _build_proxy_url c.proxy else Option.none⟩

/-- `AsyncOpenAPIClient.get_mini_apps`: GET `{DOMAIN}{APPS}`; no `proxy`
argument is passed. -/
def AsyncOpenAPIClient.get_mini_apps (c : OpenAPIClient) (app_slice : PayloadInput) :
    Except SdkError ARequest := do
  let params ← model_to_payload app_slice
  pure ⟨.GET, CLIENT_DOMAIN ++ APPS, params, Option.none, c.headers, Option.none⟩

/-- `AsyncOpenAPIClient.deploy_mini_app`: as the blocking variant; no
`proxy` argument is passed. -/
def AsyncOpenAPIClient.deploy_mini_app (c : OpenAPIClient) (fs : FileSystem)
    (deploy_app : PayloadInput) : Except SdkError ARequest := do
  let p ← model_to_payload deploy_app
  let payload ← encode_deploy_file fs p
  pure ⟨.POST,
        CLIENT_DOMAIN ++ APPS ++ "/" ++ fmtOptVal (payloadGet payload "miniAppId") ++ UPLOAD,
        [], some payload, c.headers, Option.none⟩

/-- `AsyncOpenAPIClient.get_versions_mini_app`: as the blocking variant; no
`proxy` argument is passed. -/
def AsyncOpenAPIClient.get_versions_mini_app (c : OpenAPIClient)
    (app_slice : PayloadInput) : Except SdkError ARequest := do
  let params ← model_to_payload app_slice
  pure ⟨.GET,
        CLIENT_DOMAIN ++ APPS ++ "/" ++ fmtOptVal (payloadGet params "miniAppId") ++ VERSIONS,
        params, Option.none, c.headers, Option.none⟩

/-- `AsyncOpenAPIClient.request_publish_mini_app`: as the blocking variant;
no `proxy` argument is passed. -/
def AsyncOpenAPIClient.request_publish_mini_app (c : OpenAPIClient)
    (publish_app : PayloadInput) : Except SdkError ARequest := do
  let payload ← model_to_payload publish_app
  pure ⟨.POST,
        CLIENT_DOMAIN ++ APPS ++ "/" ++ fmtOptVal (payloadGet payload "miniAppId") ++ REQUEST_PUBLISH,
        [], some payload, c.headers, Option.none⟩

/-- `AsyncOpenAPIClient.publish_mini_app`: as the blocking variant; no
`proxy` argument is passed. -/
def AsyncOpenAPIClient.publish_mini_app (c : OpenAPIClient)
    (publish_app : PayloadInput) : Except SdkError ARequest := do
  let payload ← model_to_payload publish_app
  pure ⟨.POST,
        CLIENT_DOMAIN ++ APPS ++ "/" ++ fmtOptVal (payloadGet payload "miniAppId") ++ PUBLISH,
        [], some payload, c.headers, Option.none⟩

/-! ## `zmp_openapi/openapi.py` — low-level functions

Stateless request functions; parameter order follows the source, with the
`domain` default argument made explicit.  No headers and no proxy are
attached. -/

/-- `create_app(data, domain)`: POST `{domain}{APPS}` with `data` as JSON
body. -/
def create_app (data : Payload) (domain : String) : Request :=
  ⟨.POST, domain ++ APPS, [], some data, [], Option.none⟩

/-- `get_apps(offset, limit, domain)`: GET `{domain}{APPS}` with
`{"offset": offset, "limit": limit}` as query params. -/
def get_apps (offset limit : Int) (domain : String) : Request :=
  ⟨.GET, domain ++ APPS, [("offset", .int offset), ("limit", .int limit)],
   Option.none, [], Option.none⟩

/-- `deploy_app(mini_app_id, data, domain)`: POST
`{domain}{APPS}/{mini_app_id}{UPLOAD}` with `data` as JSON body. -/
def deploy_app (mini_app_id : String) (data : Payload) (domain : String) : Request :=
  ⟨.POST, domain ++ APPS ++ "/" ++ mini_app_id ++ UPLOAD, [], some data, [],
   Option.none⟩

/-- `get_versions_app(mini_app_id, offset, limit, domain)`: GET
`{domain}{APPS}/{mini_app_id}{VERSIONS}` with offset/limit query params. -/
def get_versions_app (mini_app_id : String) (offset limit : Int)
    (domain : String) : Request :=
  ⟨.GET, domain ++ APPS ++ "/" ++ mini_app_id ++ VERSIONS,
   [("offset", .int offset), ("limit", .int limit)], Option.none, [], Option.none⟩

/-- `request_publish(mini_app_id, version_id, description, domain)`: POST
`{domain}{APPS}/{mini_app_id}{REQUEST_PUBLISH}` with body
`{"versionId": version_id}` plus `description` when it is not `None`. -/
def request_publish (mini_app_id : String) (version_id : Int)
    (description : Option String) (domain : String) : Request :=
  ⟨.POST, domain ++ APPS ++ "/" ++ mini_app_id ++ REQUEST_PUBLISH, [],
   some ([("versionId", PyValue.int version_id)]
         ++ (match description with
             | some d => [("description", PyValue.str d)]
             | Option.none => [])),
   [], Option.none⟩

/-- `publish(mini_app_id, version_id, domain)`: POST
`{domain}{APPS}/{mini_app_id}{PUBLISH}` with body
`{"versionId": version_id}`. -/
def publish (mini_app_id : String) (version_id : Int) (domain : String) : Request :=
  ⟨.POST, domain ++ APPS ++ "/" ++ mini_app_id ++ PUBLISH, [],
   some [("versionId", PyValue.int version_id)], [], Option.none⟩

/-- `async_create_app`: the `aiohttp` counterpart of `create_app`. -/
def async_create_app (data : Payload) (domain : String) : ARequest :=
  ⟨.POST, domain ++ APPS, [], some data, [], Option.none⟩

/-- `async_get_apps`: the `aiohttp` counterpart of `get_apps`. -/
def async_get_apps (offset limit : Int) (domain : String) : ARequest :=
  ⟨.GET, domain ++ APPS, [("offset", .int offset), ("limit", .int limit)],
   Option.none, [], Option.none⟩

/-- `async_deploy_app`: the `aiohttp` counterpart of `deploy_app`. -/
def async_deploy_app (mini_app_id : String) (data : Payload) (domain : String) :
    ARequest :=
  ⟨.POST, domain ++ APPS ++ "/" ++ mini_app_id ++ UPLOAD, [], some data, [],
   Option.none⟩

/-- `async_get_versions_app`: the `aiohttp` counterpart of
`get_versions_app`. -/
def async_get_versions_app (mini_app_id : String) (offset limit : Int)
    (domain : String) : ARequest :=
  ⟨.GET, domain ++ APPS ++ "/" ++ mini_app_id ++ VERSIONS,
   [("offset", .int offset), ("limit", .int limit)], Option.none, [], Option.none⟩

/-- `async_request_publish`: the `aiohttp` counterpart of
`request_publish`. -/
def async_request_publish (mini_app_id : String) (version_id : Int)
    (description : Option String) (domain : String) : ARequest :=
  ⟨.POST, domain ++ APPS ++ "/" ++ mini_app_id ++ REQUEST_PUBLISH, [],
   some ([("versionId", PyValue.int version_id)]
         ++ (match description with
             | some d => [("description", PyValue.str d)]
             | Option.none => [])),
   [], Option.none⟩

/-- `async_publish`: the `aiohttp` counterpart of `publish`. -/
def async_publish (mini_app_id : String) (version_id : Int) (domain : String) :
    ARequest :=
  ⟨.POST, domain ++ APPS ++ "/" ++ mini_app_id ++ PUBLISH, [],
   some [("versionId", PyValue.int version_id)], [], Option.none⟩

/-! ## Response parsing

`client.py` and `openapi.py` share the same `_parse_response` body for the
blocking side (`requests`); the non-blocking side uses
`_parse_async_response` (`aiohttp`). -/

/-- The decoded result of a successful SDK operation: either the JSON body
or, when JSON decoding fails, the raw text body. -/
inductive ApiResult where
  | json : Payload → ApiResult
  | text : String → ApiResult
deriving DecidableEq, Repr

/-- A `requests.Response` as the parsing code observes it: the status code,
what `response.json()` yields (`Option.none` when it raises `ValueError`,
i.e. the body is not valid JSON), and `response.text`. -/
structure Response where
  status : Nat
  json : Option Payload
  text : String
deriving DecidableEq, Repr

/-- Outcome of `await response.json()` in `aiohttp`: the decoded body, or
`aiohttp.ContentTypeError` when the content type is not JSON, or
`json.JSONDecodeError` when the content type is JSON but the body is
malformed. -/
inductive AioJson where
  | ok : Payload → AioJson
  | contentTypeError : AioJson
  | decodeError : AioJson
deriving DecidableEq, Repr

/-- An `aiohttp.ClientResponse` as the parsing code observes it. -/
structure AResponse where
  status : Nat
  json : AioJson
  text : String
deriving DecidableEq, Repr

/-- Modelled from the `requests` library (an external collaborator):
`Response.raise_for_status` raises `HTTPError` exactly for client-error
(400–499) and server-error (500–599) status codes. -/
def raise_for_status (status : Nat) : Except SdkError Unit :=
  if 400 ≤ status ∧ status < 600 then .error (.httpError status) else .ok ()

/-- Modelled from the `aiohttp` library (an external collaborator):
`ClientResponse.raise_for_status` raises for every status of 400 or
above. -/
def async_raise_for_status (status : Nat) : Except SdkError Unit :=
  if 400 ≤ status then .error (.httpError status) else .ok ()

/-- `_parse_response` (`client.py` and `openapi.py`): raise for an error
status, then try `response.json()`, falling back to `response.text` when it
raises `ValueError`. -/
def _parse_response (r : Response) : Except SdkError ApiResult := do
  let _ ← raise_for_status r.status
  match r.json with
  | some j => pure (.json j)
  | Option.none => pure (.text r.text)

/-- `_parse_async_response` (`async_client.py` and `openapi.py`): raise for
an error status, then try `await response.json()`, falling back to
`await response.text()` only on `aiohttp.ContentTypeError`; a
`json.JSONDecodeError` propagates. -/
def _parse_async_response (r : AResponse) : Except SdkError ApiResult := do
  let _ ← async_raise_for_status r.status
  match r.json with
  | .ok j => pure (.json j)
  | .contentTypeError => pure (.text r.text)
  | .decodeError => .error .jsonDecodeError

/-! ## Helper lemmas -/

deriving instance DecidableEq for Except

@[simp] theorem ok_bind {α β γ : Type} (x : α) (f : α → Except γ β) :
    Bind.bind (Except.ok x) f = f x := rfl

@[simp] theorem error_bind {α β γ : Type} (e : γ) (f : α → Except γ β) :
    Bind.bind (Except.error e : Except γ α) f = Except.error e := rfl

@[simp] theorem ok_map {α β γ : Type} (x : α) (f : α → β) :
    (Except.ok x : Except γ α).map f = Except.ok (f x) := rfl

@[simp] theorem error_map {α β γ : Type} (e : γ) (f : α → β) :
    (Except.error e : Except γ α).map f = Except.error e := rfl

@[simp] theorem ok_fmap {α β γ : Type} (x : α) (f : α → β) :
    f <$> (Except.ok x : Except γ α) = Except.ok (f x) := rfl

@[simp] theorem error_fmap {α β γ : Type} (e : γ) (f : α → β) :
    f <$> (Except.error e : Except γ α) = Except.error e := rfl

@[simp] theorem pure_eq_ok {α γ : Type} (x : α) :
    (pure x : Except γ α) = Except.ok x := rfl

/-- `setKey` touches no entry whose key differs from the target key. -/
theorem mem_setKey_of_ne {k0 : String} (v0 : PyValue) (k : String) (v : PyValue)
    (hk : k ≠ k0) : ∀ l : Payload, ((k, v) ∈ setKey k0 v0 l ↔ (k, v) ∈ l) := by
  intro l
  induction l with
  | nil => simp [setKey]
  | cons kv rest ih =>
      obtain ⟨k', v'⟩ := kv
      by_cases h : k' = k0
      · subst h
        have hset : setKey k' v0 ((k', v') :: rest) = (k', v0) :: rest := by
          simp [setKey]
        rw [hset]
        simp only [List.mem_cons]
        constructor
        · rintro (h1 | h1)
          · exact absurd (congrArg Prod.fst h1) hk
          · exact Or.inr h1
        · rintro (h1 | h1)
          · exact absurd (congrArg Prod.fst h1) hk
          · exact Or.inr h1
      · simp only [setKey, if_neg h, List.mem_cons, ih]

/-! ## Claim theorems -/

/-- **C2**: for every request-model value, `model_to_payload` returns a
mapping whose keys are exactly the wire (alias) names of the fields whose
values are set, omitting every unset optional field and emitting no null
values; a plain mapping is returned unchanged, so a model and the
equivalent wire-named mapping produce identical output. -/
theorem c2_model_to_payload_wire_names :
    (∀ m : ModelValue, model_to_payload (.model m) = .ok m.dump) ∧
    (∀ a : AppInfo, (AppInfo.dump a).map Prod.fst
        = ["appName", "appDescription", "appCategory", "appLogoUrl", "browsable"]) ∧
    (∀ s : AppSlice, (AppSlice.dump s).map Prod.fst
        = (match s.mini_app_id with
           | some _ => ["miniAppId"]
           | Option.none => []) ++ ["offset", "limit"]) ∧
    (∀ d : DeployApp, (DeployApp.dump d).map Prod.fst
        = ["miniAppId", "file", "name", "description"]) ∧
    (∀ p : PublishApp, (PublishApp.dump p).map Prod.fst
        = ["miniAppId", "versionId"]
          ++ (match p.description with
              | some _ => ["description"]
              | Option.none => [])) ∧
    (∀ m : ModelValue, (m.dump).all (fun kv => !(kv.2 == PyValue.null)) = true) ∧
    (∀ d : Payload, model_to_payload (.dict d) = .ok d) ∧
    (∀ m : ModelValue, model_to_payload (.dict m.dump) = model_to_payload (.model m)) := by
  refine ⟨fun m => rfl, fun a => rfl, ?_, fun d => rfl, ?_, ?_, fun d => rfl, fun m => rfl⟩
  · intro s; obtain ⟨mid, off, lim⟩ := s; cases mid <;> rfl
  · intro p; obtain ⟨id, v, ds⟩ := p; cases ds <;> rfl
  · intro m
    cases m with
    | appInfo a => rfl
    | appSlice s => obtain ⟨mid, off, lim⟩ := s; cases mid <;> rfl
    | deployApp d => obtain ⟨id, f, n, ds⟩ := d; cases f <;> rfl
    | publishApp p => obtain ⟨id, v, ds⟩ := p; cases ds <;> rfl

/-- **C5**: for every input that is neither a request model nor a plain
mapping, `model_to_payload` fails with the payload-type error, and every
client operation invoked with such an input (blocking or non-blocking)
fails the same way, producing no request. -/
theorem c5_other_input_type_error (v : PyValue) (c : OpenAPIClient) (fs : FileSystem) :
    model_to_payload (.other v)
        = .error (.typeError "Payload must be a dict or pydantic model") ∧
    c.create_mini_app (.other v)
        = .error (.typeError "Payload must be a dict or pydantic model") ∧
    c.get_mini_apps (.other v)
        = .error (.typeError "Payload must be a dict or pydantic model") ∧
    c.deploy_mini_app fs (.other v)
        = .error (.typeError "Payload must be a dict or pydantic model") ∧
    c.get_versions_mini_app (.other v)
        = .error (.typeError "Payload must be a dict or pydantic model") ∧
    c.request_publish_mini_app (.other v)
        = .error (.typeError "Payload must be a dict or pydantic model") ∧
    c.publish_mini_app (.other v)
        = .error (.typeError "Payload must be a dict or pydantic model") ∧
    AsyncOpenAPIClient.create_mini_app c (.other v)
        = .error (.typeError "Payload must be a dict or pydantic model") ∧
    AsyncOpenAPIClient.get_mini_apps c (.other v)
        = .error (.typeError "Payload must be a dict or pydantic model") ∧
    AsyncOpenAPIClient.deploy_mini_app c fs (.other v)
        = .error (.typeError "Payload must be a dict or pydantic model") ∧
    AsyncOpenAPIClient.get_versions_mini_app c (.other v)
        = .error (.typeError "Payload must be a dict or pydantic model") ∧
    AsyncOpenAPIClient.request_publish_mini_app c (.other v)
        = .error (.typeError "Payload must be a dict or pydantic model") ∧
    AsyncOpenAPIClient.publish_mini_app c (.other v)
        = .error (.typeError "Payload must be a dict or pydantic model") :=
  ⟨rfl, rfl, rfl, rfl, rfl, rfl, rfl, rfl, rfl, rfl, rfl, rfl, rfl⟩

/-- **C6**: constructing a client with an empty API key or an empty app id
fails with `ValueError("Invalid init value")`, and a proxy with empty host
or zero port fails with `ValueError("Invalid proxy value")`; construction
is pure, so the failed constructor issues no request. -/
theorem c6_init_rejects_bad_config (k a : String) (proxy : Option Proxy) :
    (k = "" ∨ a = "" →
      OpenAPIClient.init k a proxy = .error (.valueError "Invalid init value")) ∧
    (∀ p : Proxy, proxy = some p → p.host = "" ∨ p.port = 0 → k ≠ "" → a ≠ "" →
      OpenAPIClient.init k a proxy = .error (.valueError "Invalid proxy value")) := by
  constructor
  · intro h
    unfold OpenAPIClient.init
    rw [if_pos h]
  · intro p hp hbad hk ha
    subst hp
    have hcond : ¬(k = "" ∨ a = "") := by
      rintro (h | h) <;> [exact hk h; exact ha h]
    unfold OpenAPIClient.init
    rw [if_neg hcond]
    simp only [if_pos hbad]

/-- Witness for C6 at a concrete incomplete proxy. -/
theorem c6_init_rejects_bad_config_witness :
    OpenAPIClient.init "k" "a" (some ⟨"", 8080⟩)
      = .error (.valueError "Invalid proxy value") :=
  (c6_init_rejects_bad_config "k" "a" (some ⟨"", 8080⟩)).2 ⟨"", 8080⟩ rfl
    (Or.inl rfl) (by decide) (by decide)

/-- **C7**: every successfully constructed client carries exactly the four
fixed headers, and every operation of both facades sends exactly the
client's stored headers, hence identical headers across all calls. -/
theorem c7_fixed_headers (k a : String) (proxy : Option Proxy) (c : OpenAPIClient)
    (hinit : OpenAPIClient.init k a proxy = .ok c) :
    c.headers = [("X-Api-Key", k), ("X-Zalo-AppID", a),
                 ("X-Sdk-Version", SDK_VERSION), ("X-Sdk-Name", SDK_NAME)] ∧
    (∀ input r, c.create_mini_app input = .ok r → r.headers = c.headers) ∧
    (∀ input r, c.get_mini_apps input = .ok r → r.headers = c.headers) ∧
    (∀ fs input r, c.deploy_mini_app fs input = .ok r → r.headers = c.headers) ∧
    (∀ input r, c.get_versions_mini_app input = .ok r → r.headers = c.headers) ∧
    (∀ input r, c.request_publish_mini_app input = .ok r → r.headers = c.headers) ∧
    (∀ input r, c.publish_mini_app input = .ok r → r.headers = c.headers) ∧
    (∀ input r, AsyncOpenAPIClient.create_mini_app c input = .ok r →
      r.headers = c.headers) ∧
    (∀ input r, AsyncOpenAPIClient.get_mini_apps c input = .ok r →
      r.headers = c.headers) ∧
    (∀ fs input r, AsyncOpenAPIClient.deploy_mini_app c fs input = .ok r →
      r.headers = c.headers) ∧
    (∀ input r, AsyncOpenAPIClient.get_versions_mini_app c input = .ok r →
      r.headers = c.headers) ∧
    (∀ input r, AsyncOpenAPIClient.request_publish_mini_app c input = .ok r →
      r.headers = c.headers) ∧
    (∀ input r, AsyncOpenAPIClient.publish_mini_app c input = .ok r →
      r.headers = c.headers) := by
  refine ⟨?_, ?_, ?_, ?_, ?_, ?_, ?_, ?_, ?_, ?_, ?_, ?_, ?_⟩
  · unfold OpenAPIClient.init at hinit
    split at hinit
    · cases hinit
    · split at hinit
      · split at hinit
        · cases hinit
        · simp only [Except.ok.injEq] at hinit
          subst hinit
          rfl
      · simp only [Except.ok.injEq] at hinit
        subst hinit
        rfl
  all_goals
    first
    | (intro input r h
       cases input with
       | model m =>
           simp only [OpenAPIClient.create_mini_app, OpenAPIClient.get_mini_apps,
             OpenAPIClient.get_versions_mini_app, OpenAPIClient.request_publish_mini_app,
             OpenAPIClient.publish_mini_app, AsyncOpenAPIClient.create_mini_app,
             AsyncOpenAPIClient.get_mini_apps, AsyncOpenAPIClient.get_versions_mini_app,
             AsyncOpenAPIClient.request_publish_mini_app, AsyncOpenAPIClient.publish_mini_app,
             model_to_payload, ok_bind, pure_eq_ok, Except.ok.injEq] at h
           subst h
           rfl
       | dict d =>
           simp only [OpenAPIClient.create_mini_app, OpenAPIClient.get_mini_apps,
             OpenAPIClient.get_versions_mini_app, OpenAPIClient.request_publish_mini_app,
             OpenAPIClient.publish_mini_app, AsyncOpenAPIClient.create_mini_app,
             AsyncOpenAPIClient.get_mini_apps, AsyncOpenAPIClient.get_versions_mini_app,
             AsyncOpenAPIClient.request_publish_mini_app, AsyncOpenAPIClient.publish_mini_app,
             model_to_payload, ok_bind, pure_eq_ok, Except.ok.injEq] at h
           subst h
           rfl
       | other v =>
           simp only [OpenAPIClient.create_mini_app, OpenAPIClient.get_mini_apps,
             OpenAPIClient.get_versions_mini_app, OpenAPIClient.request_publish_mini_app,
             OpenAPIClient.publish_mini_app, AsyncOpenAPIClient.create_mini_app,
             AsyncOpenAPIClient.get_mini_apps, AsyncOpenAPIClient.get_versions_mini_app,
             AsyncOpenAPIClient.request_publish_mini_app, AsyncOpenAPIClient.publish_mini_app,
             model_to_payload, error_bind] at h
           cases h)
    | (intro fs input r h
       cases input with
       | model m =>
           simp only [OpenAPIClient.deploy_mini_app, AsyncOpenAPIClient.deploy_mini_app,
             model_to_payload, ok_bind] at h
           cases henc : encode_deploy_file fs m.dump with
           | ok q =>
               rw [henc] at h
               simp only [ok_bind, pure_eq_ok, Except.ok.injEq] at h
               subst h
               rfl
           | error e =>
               rw [henc] at h
               cases h
       | dict d =>
           simp only [OpenAPIClient.deploy_mini_app, AsyncOpenAPIClient.deploy_mini_app,
             model_to_payload, ok_bind] at h
           cases henc : encode_deploy_file fs d with
           | ok q =>
               rw [henc] at h
               simp only [ok_bind, pure_eq_ok, Except.ok.injEq] at h
               subst h
               rfl
           | error e =>
               rw [henc] at h
               cases h
       | other v =>
           simp only [OpenAPIClient.deploy_mini_app, AsyncOpenAPIClient.deploy_mini_app,
             model_to_payload, error_bind] at h
           cases h)

/-- Witness for C7 at a concrete client. -/
theorem c7_fixed_headers_witness :
    (⟨"k", "a", false, Option.none,
      [("X-Api-Key", "k"), ("X-Zalo-AppID", "a"), ("X-Sdk-Version", SDK_VERSION),
       ("X-Sdk-Name", SDK_NAME)]⟩ : OpenAPIClient).headers
      = [("X-Api-Key", "k"), ("X-Zalo-AppID", "a"), ("X-Sdk-Version", SDK_VERSION),
         ("X-Sdk-Name", SDK_NAME)] :=
  (c7_fixed_headers "k" "a" Option.none _ rfl).1

/-- **C3**: case analysis of `encode_deploy_file`: an absent `"file"` key
leaves the payload unchanged; a byte-sequence value is replaced by its
standard base64 (with `b"ZIPDATA"` giving `"WklQREFUQQ=="`); a path-like
value or a string naming an existing file is replaced by the base64 of the
file's contents; a string naming no existing file is left unchanged; and
every key other than `"file"` is always left untouched. -/
theorem c3_encode_deploy_file_cases (fs : FileSystem) (payload : Payload) :
    (payloadGet payload "file" = Option.none →
      encode_deploy_file fs payload = .ok payload) ∧
    (∀ bs, payloadGet payload "file" = some (.bytes bs) →
      encode_deploy_file fs payload
        = .ok (setKey "file" (.str (b64encode bs)) payload)) ∧
    b64encode [90, 73, 80, 68, 65, 84, 65] = "WklQREFUQQ==" ∧
    (∀ p bs, payloadGet payload "file" = some (.path p) → fs p = some bs →
      encode_deploy_file fs payload
        = .ok (setKey "file" (.str (b64encode bs)) payload)) ∧
    (∀ s bs, payloadGet payload "file" = some (.str s) → fs s = some bs →
      encode_deploy_file fs payload
        = .ok (setKey "file" (.str (b64encode bs)) payload)) ∧
    (∀ s, payloadGet payload "file" = some (.str s) → fs s = Option.none →
      encode_deploy_file fs payload = .ok payload) ∧
    (∀ q, encode_deploy_file fs payload = .ok q →
      ∀ k v, k ≠ "file" → ((k, v) ∈ payload ↔ (k, v) ∈ q)) := by
  refine ⟨?_, ?_, rfl, ?_, ?_, ?_, ?_⟩
  · intro h
    simp [encode_deploy_file, h]
  · intro bs h
    simp [encode_deploy_file, h]
  · intro p bs h hfs
    simp [encode_deploy_file, h, hfs]
  · intro s bs h hfs
    simp [encode_deploy_file, h, hfs]
  · intro s h hfs
    simp [encode_deploy_file, h, hfs]
  · intro q hq k v hk
    cases hfile : payloadGet payload "file" with
    | none =>
        simp only [encode_deploy_file, hfile, Except.ok.injEq] at hq
        subst hq
        exact Iff.rfl
    | some fv =>
        cases fv with
        | str s =>
            cases hfs : fs s with
            | none =>
                simp only [encode_deploy_file, hfile, hfs, Except.ok.injEq] at hq
                subst hq
                exact Iff.rfl
            | some bs =>
                simp only [encode_deploy_file, hfile, hfs, Except.ok.injEq] at hq
                subst hq
                exact (mem_setKey_of_ne _ k v hk payload).symm
        | bytes bs =>
            simp only [encode_deploy_file, hfile, Except.ok.injEq] at hq
            subst hq
            exact (mem_setKey_of_ne _ k v hk payload).symm
        | path p =>
            cases hfs : fs p with
            | none => simp [encode_deploy_file, hfile, hfs] at hq
            | some bs =>
                simp only [encode_deploy_file, hfile, hfs, Except.ok.injEq] at hq
                subst hq
                exact (mem_setKey_of_ne _ k v hk payload).symm
        | int n =>
            simp only [encode_deploy_file, hfile, Except.ok.injEq] at hq
            subst hq
            exact Iff.rfl
        | bool b =>
            simp only [encode_deploy_file, hfile, Except.ok.injEq] at hq
            subst hq
            exact Iff.rfl
        | null =>
            simp only [encode_deploy_file, hfile, Except.ok.injEq] at hq
            subst hq
            exact Iff.rfl

/-- Witness for C3: encoding the byte sequence `b"ZIPDATA"` in a payload
with a second key. -/
theorem c3_encode_deploy_file_cases_witness :
    encode_deploy_file (fun _ => Option.none)
        [("file", .bytes [90, 73, 80, 68, 65, 84, 65]), ("name", .str "v1")]
      = .ok [("file", .str "WklQREFUQQ=="), ("name", .str "v1")] := by
  have h := (c3_encode_deploy_file_cases (fun _ => Option.none)
      [("file", .bytes [90, 73, 80, 68, 65, 84, 65]), ("name", .str "v1")]).2.1
      [90, 73, 80, 68, 65, 84, 65] rfl
  rw [h]
  rfl

/-- **C4 counterexample**: a response with HTTP status 304 — outside the
2xx success range — does not cause a failure: both `_parse_response` and
`_parse_async_response` return the body. -/
theorem c4_non_2xx_not_failure_counterexample :
    _parse_response ⟨304, Option.none, "x"⟩ = .ok (.text "x") ∧
    _parse_async_response ⟨304, .contentTypeError, "x"⟩ = .ok (.text "x") ∧
    ¬(200 ≤ 304 ∧ 304 < 300) := by decide

/-- **C4 (amended)**: an operation fails with an error exposing the status
code exactly for statuses 400–599 (every status ≥ 400 in the non-blocking
variants); all other statuses, 2xx or not, are treated as success.  On such
a success a body that is not valid JSON is returned as raw text; the
non-blocking variants fall back to raw text only for a non-JSON content
type and propagate a decode error for a JSON-typed but malformed body. -/
theorem c4_parse_response_amended (r : Response) (ar : AResponse) :
    (400 ≤ r.status ∧ r.status < 600 →
      _parse_response r = .error (.httpError r.status)) ∧
    (¬(400 ≤ r.status ∧ r.status < 600) → r.json = Option.none →
      _parse_response r = .ok (.text r.text)) ∧
    (∀ j, ¬(400 ≤ r.status ∧ r.status < 600) → r.json = some j →
      _parse_response r = .ok (.json j)) ∧
    (400 ≤ ar.status → _parse_async_response ar = .error (.httpError ar.status)) ∧
    (¬400 ≤ ar.status → ar.json = .contentTypeError →
      _parse_async_response ar = .ok (.text ar.text)) ∧
    (¬400 ≤ ar.status → ar.json = .decodeError →
      _parse_async_response ar = .error .jsonDecodeError) ∧
    (∀ j, ¬400 ≤ ar.status → ar.json = .ok j →
      _parse_async_response ar = .ok (.json j)) := by
  refine ⟨?_, ?_, ?_, ?_, ?_, ?_, ?_⟩
  · intro h
    simp [_parse_response, raise_for_status, if_pos h]
  · intro h hj
    simp [_parse_response, raise_for_status, if_neg h, hj]
  · intro j h hj
    simp [_parse_response, raise_for_status, if_neg h, hj]
  · intro h
    simp [_parse_async_response, async_raise_for_status, if_pos h]
  · intro h hj
    simp [_parse_async_response, async_raise_for_status, if_neg h, hj]
  · intro h hj
    simp [_parse_async_response, async_raise_for_status, if_neg h, hj]
  · intro j h hj
    simp [_parse_async_response, async_raise_for_status, if_neg h, hj]

/-- Witness for C4 (amended) at status 404 and a 200 text fallback. -/
theorem c4_parse_response_amended_witness :
    _parse_response ⟨404, Option.none, "nf"⟩ = .error (.httpError 404) ∧
    _parse_response ⟨200, Option.none, "plain text"⟩ = .ok (.text "plain text") :=
  ⟨(c4_parse_response_amended ⟨404, Option.none, "nf"⟩ ⟨404, .ok [], ""⟩).1
      (by decide),
   (c4_parse_response_amended ⟨200, Option.none, "plain text"⟩ ⟨404, .ok [], ""⟩).2.1
      (by decide) rfl⟩

/-- **C1 divergence**: with proxy host `"p.example"` port `8080` configured
at construction, only `create_mini_app` routes through
`http://p.example:8080` (in both facades); the other five operations of
each facade pass no proxy at all, and after `cancel_proxy` even
`create_mini_app` goes direct. -/
theorem c1_only_create_mini_app_uses_proxy :
    ((OpenAPIClient.init "k" "a" (some ⟨"p.example", 8080⟩)).bind
        (fun c => (c.create_mini_app (.dict [])).map Request.proxies)
      = .ok (some [("http", "http://p.example:8080"),
                   ("https", "http://p.example:8080")])) ∧
    ((OpenAPIClient.init "k" "a" (some ⟨"p.example", 8080⟩)).bind
        (fun c => (AsyncOpenAPIClient.create_mini_app c (.dict [])).map ARequest.proxy)
      = .ok (some "http://p.example:8080")) ∧
    ((OpenAPIClient.init "k" "a" (some ⟨"p.example", 8080⟩)).bind
        (fun c => (c.get_mini_apps
            (.dict [("offset", .int 0), ("limit", .int 10)])).map Request.proxies)
      = .ok Option.none) ∧
    ((OpenAPIClient.init "k" "a" (some ⟨"p.example", 8080⟩)).bind
        (fun c => (c.deploy_mini_app (fun _ => Option.none)
            (.dict [("miniAppId", .str "1")])).map Request.proxies)
      = .ok Option.none) ∧
    ((OpenAPIClient.init "k" "a" (some ⟨"p.example", 8080⟩)).bind
        (fun c => (c.get_versions_mini_app
            (.dict [("miniAppId", .str "1"), ("offset", .int 0),
                    ("limit", .int 10)])).map Request.proxies)
      = .ok Option.none) ∧
    ((OpenAPIClient.init "k" "a" (some ⟨"p.example", 8080⟩)).bind
        (fun c => (c.request_publish_mini_app
            (.model (.publishApp ⟨"1", 2, Option.none⟩))).map Request.proxies)
      = .ok Option.none) ∧
    ((OpenAPIClient.init "k" "a" (some ⟨"p.example", 8080⟩)).bind
        (fun c => (c.publish_mini_app
            (.model (.publishApp ⟨"1", 2, Option.none⟩))).map Request.proxies)
      = .ok Option.none) ∧
    ((OpenAPIClient.init "k" "a" (some ⟨"p.example", 8080⟩)).bind
        (fun c => (AsyncOpenAPIClient.get_mini_apps c
            (.dict [("offset", .int 0), ("limit", .int 10)])).map ARequest.proxy)
      = .ok Option.none) ∧
    ((OpenAPIClient.init "k" "a" (some ⟨"p.example", 8080⟩)).bind
        (fun c => (AsyncOpenAPIClient.deploy_mini_app c (fun _ => Option.none)
            (.dict [("miniAppId", .str "1")])).map ARequest.proxy)
      = .ok Option.none) ∧
    ((OpenAPIClient.init "k" "a" (some ⟨"p.example", 8080⟩)).bind
        (fun c => (AsyncOpenAPIClient.get_versions_mini_app c
            (.dict [("miniAppId", .str "1"), ("offset", .int 0),
                    ("limit", .int 10)])).map ARequest.proxy)
      = .ok Option.none) ∧
    ((OpenAPIClient.init "k" "a" (some ⟨"p.example", 8080⟩)).bind
        (fun c => (AsyncOpenAPIClient.request_publish_mini_app c
            (.model (.publishApp ⟨"1", 2, Option.none⟩))).map ARequest.proxy)
      = .ok Option.none) ∧
    ((OpenAPIClient.init "k" "a" (some ⟨"p.example", 8080⟩)).bind
        (fun c => (AsyncOpenAPIClient.publish_mini_app c
            (.model (.publishApp ⟨"1", 2, Option.none⟩))).map ARequest.proxy)
      = .ok Option.none) ∧
    ((OpenAPIClient.init "k" "a" (some ⟨"p.example", 8080⟩)).bind
        (fun c => ((c.cancel_proxy).create_mini_app (.dict [])).map Request.proxies)
      = .ok Option.none) ∧
    ((OpenAPIClient.init "k" "a" (some ⟨"p.example", 8080⟩)).bind
        (fun c => (AsyncOpenAPIClient.create_mini_app (c.cancel_proxy)
            (.dict [])).map ARequest.proxy)
      = .ok Option.none) :=
  ⟨rfl, rfl, rfl, rfl, rfl, rfl, rfl, rfl, rfl, rfl, rfl, rfl, rfl, rfl⟩

/-- **C8 counterexample**: for the same `PublishApp` value, the client
facade's request-publish body contains `miniAppId` while the low-level
function's body does not, so the query/body parameters are not
identical. -/
theorem c8_request_publish_bodies_differ :
    ((OpenAPIClient.init "k" "a" Option.none).bind
        (fun c => (c.request_publish_mini_app
            (.model (.publishApp ⟨"1", 2, Option.none⟩))).map Request.jsonBody)
      = .ok (some [("miniAppId", .str "1"), ("versionId", .int 2)])) ∧
    (request_publish "1" 2 Option.none DOMAIN_PROD).jsonBody
      = some [("versionId", .int 2)] ∧
    ([("miniAppId", PyValue.str "1"), ("versionId", PyValue.int 2)] : Payload)
      ≠ [("versionId", PyValue.int 2)] := by decide

/-- **C8 (amended)**: facade and low-level variants construct the same URL
path for every operation, and the non-blocking variants construct exactly
the same URL, query params and body as their blocking counterparts; the
facade's query/body parameters coincide with the low-level ones for create
and list-apps, while for version listing, request-publish and publish the
facade additionally sends the `miniAppId` entry the low-level function
omits. -/
theorem c8_path_equivalence_amended :
    (∀ (c : OpenAPIClient) (fs : FileSystem) (id : String) (d : Payload),
      payloadGet d "file" = Option.none → payloadGet d "miniAppId" = some (.str id) →
      (c.deploy_mini_app fs (.dict d)).map (fun r => (r.url, r.jsonBody))
        = .ok ((deploy_app id d DOMAIN_PROD).url, (deploy_app id d DOMAIN_PROD).jsonBody)) ∧
    (∀ (c : OpenAPIClient) (d : Payload),
      (c.create_mini_app (.dict d)).map (fun r => (r.url, r.jsonBody))
        = .ok ((create_app d DOMAIN_PROD).url, (create_app d DOMAIN_PROD).jsonBody)) ∧
    (∀ (c : OpenAPIClient) (off lim : Int),
      (c.get_mini_apps (.model (.appSlice ⟨Option.none, off, lim⟩))).map
          (fun r => (r.url, r.params))
        = .ok ((get_apps off lim DOMAIN_PROD).url, (get_apps off lim DOMAIN_PROD).params)) ∧
    (∀ (c : OpenAPIClient) (id : String) (off lim : Int),
      (c.get_versions_mini_app (.model (.appSlice ⟨some id, off, lim⟩))).map
          (fun r => (r.url, r.params))
        = .ok ((get_versions_app id off lim DOMAIN_PROD).url,
               ("miniAppId", PyValue.str id)
                 :: (get_versions_app id off lim DOMAIN_PROD).params)) ∧
    (∀ (c : OpenAPIClient) (id : String) (v : Int) (desc : Option String),
      (c.request_publish_mini_app (.model (.publishApp ⟨id, v, desc⟩))).map
          (fun r => (r.url, r.jsonBody))
        = .ok ((request_publish id v desc DOMAIN_PROD).url,
               ((request_publish id v desc DOMAIN_PROD).jsonBody).map
                 (fun b => ("miniAppId", PyValue.str id) :: b))) ∧
    (∀ (c : OpenAPIClient) (id : String) (v : Int) (desc : Option String),
      (c.publish_mini_app (.model (.publishApp ⟨id, v, desc⟩))).map Request.url
        = .ok ((publish id v DOMAIN_PROD).url)) ∧
    (∀ (c : OpenAPIClient) (id : String) (v : Int),
      (c.publish_mini_app (.model (.publishApp ⟨id, v, Option.none⟩))).map Request.jsonBody
        = .ok (((publish id v DOMAIN_PROD).jsonBody).map
            (fun b => ("miniAppId", PyValue.str id) :: b))) ∧
    (∀ (c : OpenAPIClient) (input : PayloadInput),
      (c.create_mini_app input).map (fun r => (r.url, r.params, r.jsonBody))
        = (AsyncOpenAPIClient.create_mini_app c input).map
            (fun r => (r.url, r.params, r.jsonBody))) ∧
    (∀ (c : OpenAPIClient) (input : PayloadInput),
      (c.get_mini_apps input).map (fun r => (r.url, r.params, r.jsonBody))
        = (AsyncOpenAPIClient.get_mini_apps c input).map
            (fun r => (r.url, r.params, r.jsonBody))) ∧
    (∀ (c : OpenAPIClient) (fs : FileSystem) (input : PayloadInput),
      (c.deploy_mini_app fs input).map (fun r => (r.url, r.params, r.jsonBody))
        = (AsyncOpenAPIClient.deploy_mini_app c fs input).map
            (fun r => (r.url, r.params, r.jsonBody))) ∧
    (∀ (c : OpenAPIClient) (input : PayloadInput),
      (c.get_versions_mini_app input).map (fun r => (r.url, r.params, r.jsonBody))
        = (AsyncOpenAPIClient.get_versions_mini_app c input).map
            (fun r => (r.url, r.params, r.jsonBody))) ∧
    (∀ (c : OpenAPIClient) (input : PayloadInput),
      (c.request_publish_mini_app input).map (fun r => (r.url, r.params, r.jsonBody))
        = (AsyncOpenAPIClient.request_publish_mini_app c input).map
            (fun r => (r.url, r.params, r.jsonBody))) ∧
    (∀ (c : OpenAPIClient) (input : PayloadInput),
      (c.publish_mini_app input).map (fun r => (r.url, r.params, r.jsonBody))
        = (AsyncOpenAPIClient.publish_mini_app c input).map
            (fun r => (r.url, r.params, r.jsonBody))) ∧
    (∀ (d : Payload) (dom : String),
      ((create_app d dom).url, (create_app d dom).params, (create_app d dom).jsonBody)
        = ((async_create_app d dom).url, (async_create_app d dom).params,
           (async_create_app d dom).jsonBody)) ∧
    (∀ (off lim : Int) (dom : String),
      ((get_apps off lim dom).url, (get_apps off lim dom).params,
       (get_apps off lim dom).jsonBody)
        = ((async_get_apps off lim dom).url, (async_get_apps off lim dom).params,
           (async_get_apps off lim dom).jsonBody)) ∧
    (∀ (id : String) (d : Payload) (dom : String),
      ((deploy_app id d dom).url, (deploy_app id d dom).params,
       (deploy_app id d dom).jsonBody)
        = ((async_deploy_app id d dom).url, (async_deploy_app id d dom).params,
           (async_deploy_app id d dom).jsonBody)) ∧
    (∀ (id : String) (off lim : Int) (dom : String),
      ((get_versions_app id off lim dom).url, (get_versions_app id off lim dom).params,
       (get_versions_app id off lim dom).jsonBody)
        = ((async_get_versions_app id off lim dom).url,
           (async_get_versions_app id off lim dom).params,
           (async_get_versions_app id off lim dom).jsonBody)) ∧
    (∀ (id : String) (v : Int) (desc : Option String) (dom : String),
      ((request_publish id v desc dom).url, (request_publish id v desc dom).params,
       (request_publish id v desc dom).jsonBody)
        = ((async_request_publish id v desc dom).url,
           (async_request_publish id v desc dom).params,
           (async_request_publish id v desc dom).jsonBody)) ∧
    (∀ (id : String) (v : Int) (dom : String),
      ((publish id v dom).url, (publish id v dom).params, (publish id v dom).jsonBody)
        = ((async_publish id v dom).url, (async_publish id v dom).params,
           (async_publish id v dom).jsonBody)) := by
  refine ⟨?_, fun c d => rfl, fun c off lim => rfl, fun c id off lim => rfl,
    ?_, ?_, fun c id v => rfl, ?_, ?_, ?_, ?_, ?_, ?_,
    fun d dom => rfl, fun off lim dom => rfl, fun id d dom => rfl,
    fun id off lim dom => rfl, ?_, fun id v dom => rfl⟩
  · intro c fs id d hfile hid
    simp only [OpenAPIClient.deploy_mini_app, model_to_payload, ok_bind,
      encode_deploy_file, hfile, ok_map, pure_eq_ok, hid, Except.ok.injEq]
    simp only [deploy_app, fmtOptVal, pyStrOf, hid]
    rfl
  · intro c id v desc
    cases desc <;> rfl
  · intro c id v desc
    cases desc <;> rfl
  · intro c input
    cases input <;> rfl
  · intro c input
    cases input <;> rfl
  · intro c fs input
    cases input with
    | model m =>
        simp only [OpenAPIClient.deploy_mini_app, AsyncOpenAPIClient.deploy_mini_app,
          model_to_payload, ok_bind]
        cases henc : encode_deploy_file fs m.dump <;> simp [henc]
    | dict d =>
        simp only [OpenAPIClient.deploy_mini_app, AsyncOpenAPIClient.deploy_mini_app,
          model_to_payload, ok_bind]
        cases henc : encode_deploy_file fs d <;> simp [henc]
    | other v => rfl
  · intro c input
    cases input <;> rfl
  · intro c input
    cases input <;> rfl
  · intro c input
    cases input <;> rfl
  · intro id v desc dom
    cases desc <;> rfl

/-- Witness for C8 (amended): deploy at a concrete client and payload. -/
theorem c8_path_equivalence_amended_witness :
    ((⟨"k", "a", false, Option.none, []⟩ : OpenAPIClient).deploy_mini_app
        (fun _ => Option.none) (.dict [("miniAppId", .str "1")])).map
        (fun r => (r.url, r.jsonBody))
      = .ok ((deploy_app "1" [("miniAppId", PyValue.str "1")] DOMAIN_PROD).url,
             (deploy_app "1" [("miniAppId", PyValue.str "1")] DOMAIN_PROD).jsonBody) :=
  c8_path_equivalence_amended.1 ⟨"k", "a", false, Option.none, []⟩
    (fun _ => Option.none) "1" [("miniAppId", PyValue.str "1")] rfl rfl

/-- **C9 counterexample**: the client facade's direct-publish request body
does include the description and depends on it. -/
theorem c9_publish_mini_app_sends_description :
    ((OpenAPIClient.init "k" "a" Option.none).bind
        (fun c => (c.publish_mini_app
            (.model (.publishApp ⟨"1", 2, some "d"⟩))).map Request.jsonBody)
      = .ok (some [("miniAppId", .str "1"), ("versionId", .int 2),
                   ("description", .str "d")])) ∧
    ((OpenAPIClient.init "k" "a" Option.none).bind
        (fun c => (c.publish_mini_app
            (.model (.publishApp ⟨"1", 2, some "d"⟩))).map Request.jsonBody)
      ≠ (OpenAPIClient.init "k" "a" Option.none).bind
          (fun c => (c.publish_mini_app
              (.model (.publishApp ⟨"1", 2, Option.none⟩))).map Request.jsonBody)) := by
  decide

/-- **C9 (amended)**: only the low-level direct-publish functions ignore
the description — their body is `{"versionId": v}` regardless of it — while
the facade's `publish_mini_app` (blocking and non-blocking) forwards the
full payload including the description when set; the request-review
operation includes the description in both its facade and low-level
forms. -/
theorem c9_publish_description_amended (c : OpenAPIClient) (id : String) (v : Int)
    (desc : Option String) :
    (publish id v DOMAIN_PROD).jsonBody = some [("versionId", PyValue.int v)] ∧
    (async_publish id v DOMAIN_PROD).jsonBody = some [("versionId", PyValue.int v)] ∧
    ((c.publish_mini_app (.model (.publishApp ⟨id, v, desc⟩))).map Request.jsonBody
      = .ok (some ([("miniAppId", PyValue.str id), ("versionId", PyValue.int v)]
          ++ (match desc with
              | some d => [("description", PyValue.str d)]
              | Option.none => [])))) ∧
    ((AsyncOpenAPIClient.publish_mini_app c
          (.model (.publishApp ⟨id, v, desc⟩))).map ARequest.jsonBody
      = .ok (some ([("miniAppId", PyValue.str id), ("versionId", PyValue.int v)]
          ++ (match desc with
              | some d => [("description", PyValue.str d)]
              | Option.none => [])))) ∧
    (request_publish id v desc DOMAIN_PROD).jsonBody
      = some ([("versionId", PyValue.int v)]
          ++ (match desc with
              | some d => [("description", PyValue.str d)]
              | Option.none => [])) ∧
    ((c.request_publish_mini_app (.model (.publishApp ⟨id, v, desc⟩))).map Request.jsonBody
      = .ok (some ([("miniAppId", PyValue.str id), ("versionId", PyValue.int v)]
          ++ (match desc with
              | some d => [("description", PyValue.str d)]
              | Option.none => [])))) := by
  cases desc <;> exact ⟨rfl, rfl, rfl, rfl, rfl, rfl⟩

/-- **C10 counterexample**: after `set_proxy`, a subsequent
`get_mini_apps` request still carries no proxy, so it is not the case that
every subsequent request uses the configured proxy. -/
theorem c10_set_proxy_then_get_mini_apps_unproxied :
    (OpenAPIClient.init "k" "a" Option.none).bind
        (fun c => ((c.set_proxy ⟨"p.example", 8080⟩).get_mini_apps
            (.dict [("offset", .int 0), ("limit", .int 10)])).map Request.proxies)
      = .ok Option.none := by decide

/-- **C10 (amended)**: `set_proxy` accepts any `Proxy` — including one with
an empty host or zero port that the constructor would reject — without
validation, setting `is_use_proxy` and storing the proxy; subsequent
`create_mini_app` calls (the only operation that consults the proxy) then
route through `http://{host}:{port}` in both facades, so the
incomplete-proxy-pair check is enforced only at construction. -/
theorem c10_set_proxy_unvalidated (c : OpenAPIClient) (p : Proxy) (d : Payload) :
    (c.set_proxy p).is_use_proxy = true ∧
    (c.set_proxy p).proxy = some p ∧
    ((c.set_proxy p).create_mini_app (.dict d)).map Request.proxies
      = .ok (some [("http", "http://" ++ p.host ++ ":" ++ toString p.port),
                   ("https", "http://" ++ p.host ++ ":" ++ toString p.port)]) ∧
    (AsyncOpenAPIClient.create_mini_app (c.set_proxy p) (.dict d)).map ARequest.proxy
      = .ok (some ("http://" ++ p.host ++ ":" ++ toString p.port)) ∧
    (p.host = "" ∨ p.port = 0 →
      OpenAPIClient.init "k" "a" (some p) = .error (.valueError "Invalid proxy value")) := by
  refine ⟨rfl, rfl, rfl, rfl, ?_⟩
  intro hbad
  unfold OpenAPIClient.init
  rw [if_neg (by decide)]
  simp only [if_pos hbad]

/-- Witness for C10 (amended) at the degenerate proxy the constructor
rejects. -/
theorem c10_set_proxy_unvalidated_witness :
    ((⟨"k", "a", false, Option.none, []⟩ : OpenAPIClient).set_proxy
        ⟨"", 0⟩).is_use_proxy = true ∧
    OpenAPIClient.init "k" "a" (some ⟨"", 0⟩)
      = .error (.valueError "Invalid proxy value") :=
  ⟨(c10_set_proxy_unvalidated ⟨"k", "a", false, Option.none, []⟩ ⟨"", 0⟩ []).1,
   (c10_set_proxy_unvalidated ⟨"k", "a", false, Option.none, []⟩ ⟨"", 0⟩ []).2.2.2.2
     (Or.inl rfl)⟩

end ZmpOpenapi





